import Mathlib

/-!
Shallow embedding of the SilverLink ESP32 controller firmware
(src/SilverLink-Controller_ESP32_NOLCD.ino), covering the connection/mode
state machine, the runtime-configuration loader, the actuator state-sync
protocol and the offline local-automation loop.  Machine integers are
modelled as Int (GPIO pins, sensor values) and Nat (millisecond clocks,
failure counters); the JSON layer is modelled as already-decoded records,
with decode failure represented by Option.  GPIO levels and the persisted
actuator-state file are modelled as total maps from pin numbers.  Serial
logging, the LCD-free status printer and WiFi scanning are pure logging and
are not modelled.
-/

namespace SilverLink

/-- Mode enumeration, from `enum StatusMode { ONLINE, OFFLINE_WIFI, OFFLINE_SERVER }`. -/
inductive StatusMode where
  | ONLINE
  | OFFLINE_WIFI
  | OFFLINE_SERVER
deriving DecidableEq

/-- Heartbeat period, from `const unsigned long heartbeatInterval = 30000`. -/
def heartbeatInterval : Nat := 30000

/-- Offline automation period, from `const unsigned long moistureInterval = 5 * 60 * 1000`. -/
def moistureInterval : Nat := 5 * 60 * 1000

/-- Sync re-request throttle, from `const unsigned long stateSyncRequestInterval = 60000`. -/
def stateSyncRequestInterval : Nat := 60000

/-- Sensor registry entry, from `struct Sensor`.  The float `value` field is
modelled as Int: the calibrated soil-moisture reading is integral. -/
structure Sensor where
  type : String
  pin : Int
  threshold : Int
  value : Int
deriving DecidableEq

/-- Actuator registry entry, from `struct Aktuator`. -/
structure Aktuator where
  function : String
  pin : Int
  state : Bool
  pendingStateSync : Bool
deriving DecidableEq

/-- Parsed sensor entry of a runtime-config payload: `type`, `pin`,
and `threshold` with JSON-absent modelled as none (code default -1). -/
structure SensorCfg where
  type : String
  pin : Int
  threshold : Option Int
deriving DecidableEq

/-- Parsed actuator entry of a runtime-config payload: `function`, `pin`,
and `current_state` with JSON-absent modelled as none (code default false). -/
structure AktuatorCfg where
  function : String
  pin : Int
  current_state : Option Bool
deriving DecidableEq

/-- Parsed runtime-config payload; a missing `sensors` or `aktuators`
array (falsy JsonArray in the code) is none. -/
structure RuntimeCfg where
  sensors : Option (List SensorCfg)
  aktuators : Option (List AktuatorCfg)
deriving DecidableEq

/-- Global mutable state of the firmware relevant to the claims: the mode
machine fields, the failure counters, the registries, the sync bookkeeping,
the GPIO output levels, and the two persisted files (actuator states and
runtime config).  `wsConnected` mirrors `webSocket.isConnected()`: it is an
environment input read by the handlers and never written by them. -/
structure SysState where
  mode : StatusMode
  offlineUntil : Nat
  lastMoistureCheck : Nat
  runtimeLoaded : Bool
  serverFailCount : Nat
  wifiFailCount : Nat
  lastHeartbeat : Nat
  consecutiveErrors : Nat
  lastStateSyncRequest : Nat
  lastStateSync : Nat
  pendingStateSync : Bool
  sensors : List Sensor
  aktuators : List Aktuator
  wsConnected : Bool
  gpio : Int → Bool
  persisted : Int → Option Bool
  runtimeFile : Option RuntimeCfg

/-- Outbound wire messages.  Only the fields the claims inspect are kept:
the token and timestamp fields of the JSON payloads are elided. -/
inductive OutMsg where
  | auth
  | heartbeat
  | confirm (pin : Int) (state : Bool) (success : Bool)
deriving DecidableEq

/-- Observable side effects of the offline automation path: GPIO writes,
persisted-state writes, blocking delays and the self-restart. -/
inductive Act where
  | gpioWrite (pin : Int) (level : Bool)
  | persistState (pin : Int) (state : Bool)
  | delayMs (ms : Nat)
  | restart
deriving DecidableEq

/-- Pointwise update of a pin-indexed map (one `digitalWrite`, or one key
update of the actuator-states JSON document). -/
def setPin {β : Type} (f : Int → β) (p : Int) (v : β) : Int → β :=
  fun q => if q = p then v else f q

/-- Update the first list element satisfying `p` (the source iterates with
a reference and breaks after the first match). -/
def updateFirst {α : Type} (p : α → Bool) (f : α → α) : List α → List α
  | [] => []
  | a :: as => if p a then f a :: as else a :: updateFirst p f as

/-- Mark every actuator for re-sync, from the
`for (Aktuator &akt : aktuators) akt.pendingStateSync = true;` loops. -/
def markAllPending (l : List Aktuator) : List Aktuator :=
  l.map fun a => { a with pendingStateSync := true }

/-- Embeds `saveActuatorState(int pin, bool state)`: merges one pin/state
pair into the persisted actuator-state document. -/
def saveActuatorState (st : SysState) (pin : Int) (state : Bool) : SysState :=
  { st with persisted := setPin st.persisted pin (some state) }

/-- Embeds `confirmActuatorState(int pin, bool state, bool success)`:
emits the confirmation only when the mode is ONLINE and the socket is
connected, otherwise sends nothing. -/
def confirmActuatorState (st : SysState) (pin : Int) (state success : Bool) : List OutMsg :=
  if st.mode = .ONLINE ∧ st.wsConnected = true then [.confirm pin state success] else []

/-- One `(pin, function, state)` tuple of an `actuator_state_sync` payload. -/
structure SyncTuple where
  pin : Int
  function : String
  state : Bool
deriving DecidableEq

/-- Body of the per-tuple loop of `applyActuatorStateSync`: find the first
local actuator with the given pin (the source breaks after the first
match); compare the physical level `digitalRead(pin)` with the expected
state; on difference drive the GPIO, update the registry entry and persist;
in both cases clear that entry `pendingStateSync` flag and emit a success
confirmation; an unmatched pin is skipped. -/
def processTuple (t : SyncTuple) (st : SysState) : SysState × List OutMsg :=
  match st.aktuators.find? (fun a => a.pin == t.pin) with
  | none => (st, [])
  | some _ =>
    if st.gpio t.pin = t.state then
      ({ st with aktuators := updateFirst (fun a => a.pin == t.pin)
                   (fun a => { a with pendingStateSync := false }) st.aktuators },
       confirmActuatorState st t.pin t.state true)
    else
      ({ (saveActuatorState st t.pin t.state) with
           gpio := setPin st.gpio t.pin t.state,
           aktuators := updateFirst (fun a => a.pin == t.pin)
             (fun a => { a with state := t.state, pendingStateSync := false }) st.aktuators },
       confirmActuatorState st t.pin t.state true)

/-- Sequential processing of a state-sync tuple list. -/
def applySyncList : List SyncTuple → SysState → SysState × List OutMsg
  | [], st => (st, [])
  | t :: ts, st =>
    let r1 := processTuple t st
    let r2 := applySyncList ts r1.1
    (r2.1, r1.2 ++ r2.2)

/-- Embeds `applyActuatorStateSync(const JsonArray&)`: process every tuple,
then clear the process-wide pending flag and stamp `lastStateSync`. -/
def applyActuatorStateSync (now : Nat) (ts : List SyncTuple) (st : SysState) :
    SysState × List OutMsg :=
  let r := applySyncList ts st
  ({ r.1 with pendingStateSync := false, lastStateSync := now }, r.2)

/-- Embeds the `set_aktuator` branch of `handleServerCommand`: validate the
pin range, look the actuator up by pin, and either drive/update/persist it
(clearing its pendingSync flag) with an optional success confirmation, or
leave the state untouched with an optional failure confirmation. -/
def handleSetAktuator (pin : Int) (state rc : Bool) (st : SysState) : SysState × List OutMsg :=
  if pin < 0 ∨ pin > 39 then
    (st, if rc then confirmActuatorState st pin state false else [])
  else if (st.aktuators.find? (fun a => a.pin == pin)).isSome then
    ({ (saveActuatorState st pin state) with
         gpio := setPin st.gpio pin state,
         aktuators := updateFirst (fun a => a.pin == pin)
           (fun a => { a with state := state, pendingStateSync := false }) st.aktuators },
     if rc then confirmActuatorState st pin state true else [])
  else
    (st, if rc then confirmActuatorState st pin state false else [])

/-- Sensor-loading step of `loadRuntimeConfig`: an out-of-range pin is
skipped; a `dht11` entry expands to two registry entries (temperature and
humidity, struct-default threshold -1); any other type yields one entry
with the payload threshold (default -1 when absent). -/
def loadSensorEntry (c : SensorCfg) : List Sensor :=
  if c.pin < 0 ∨ c.pin > 39 then []
  else if c.type = "dht11" then
    [{ type := "dht_temperature", pin := c.pin, threshold := -1, value := 0 },
     { type := "dht_humidity", pin := c.pin, threshold := -1, value := 0 }]
  else
    [{ type := c.type, pin := c.pin, threshold := c.threshold.getD (-1), value := 0 }]

/-- Sensor-array loop of `loadRuntimeConfig`. -/
def loadSensors (cs : List SensorCfg) : List Sensor :=
  (cs.map loadSensorEntry).flatten

/-- Actuator-array loop of `loadRuntimeConfig`: skip out-of-range pins;
otherwise append the entry (state from `current_state`, pendingSync true)
and drive the GPIO to that state. -/
def loadAktuators : List AktuatorCfg → (Int → Bool) → List Aktuator × (Int → Bool)
  | [], g => ([], g)
  | c :: cs, g =>
    if c.pin < 0 ∨ c.pin > 39 then loadAktuators cs g
    else
      let cur := c.current_state.getD false
      let r := loadAktuators cs (setPin g c.pin cur)
      ({ function := c.function, pin := c.pin, state := cur, pendingStateSync := true } :: r.1,
       r.2)

/-- Embeds `loadActuatorStates()`: for every registry entry whose pin has a
persisted value, overwrite the in-memory state and the GPIO level with it.
A missing or unparseable states file corresponds to the empty map. -/
def applySavedStates (persisted : Int → Option Bool) :
    List Aktuator → (Int → Bool) → List Aktuator × (Int → Bool)
  | [], g => ([], g)
  | a :: as, g =>
    match persisted a.pin with
    | some s =>
      let r := applySavedStates persisted as (setPin g a.pin s)
      ({ a with state := s } :: r.1, r.2)
    | none =>
      let r := applySavedStates persisted as g
      (a :: r.1, r.2)

/-- Embeds the successful path of `loadRuntimeConfig()`: the registries are
cleared and rebuilt from the payload, the GPIOs are driven to the payload
`current_state` values, then `loadActuatorStates` applies the persisted
booleans on top; finally `runtimeLoaded` and `pendingStateSync` are set. -/
def loadRuntimeConfig (cfg : RuntimeCfg) (st : SysState) : SysState :=
  let sens := loadSensors (cfg.sensors.getD [])
  let ra := loadAktuators (cfg.aktuators.getD []) st.gpio
  let rs := applySavedStates st.persisted ra.1 ra.2
  { st with sensors := sens, aktuators := rs.1, gpio := rs.2,
            runtimeLoaded := true, pendingStateSync := true }

/-- Embeds `saveRuntimeConfig(const String&)`: an oversized payload is
skipped; otherwise the file is written and `loadRuntimeConfig` re-runs. -/
def saveRuntimeConfig (cfg : RuntimeCfg) (rawLen : Nat) (st : SysState) : SysState :=
  if rawLen > 2048 then st
  else loadRuntimeConfig cfg { st with runtimeFile := some cfg }

/-- Inbound commands after JSON decode, keyed by the `event` discriminant.
`runtimeConfig` carries the decoded payload plus the raw frame length
(checked by `saveRuntimeConfig`); `actuatorStateSync` carries the optional
`actuators` array. -/
inductive Cmd where
  | setAktuator (pin : Int) (state : Bool) (requireConfirmation : Bool)
  | runtimeConfig (cfg : RuntimeCfg) (rawLen : Nat)
  | refreshConfig
  | authSuccess
  | actuatorStateSync (actuators : Option (List SyncTuple))
  | dataAck (processed : Int)
  | heartbeatAck
  | errorMsg (message : String)
  | unknown

/-- An inbound text frame: its byte length and its JSON decode result
(none models a structural decode failure). -/
structure InMsg where
  len : Nat
  decoded : Option Cmd

/-- Command dispatch of `handleServerCommand`, by `event` value.  The
`auth_success` branch only schedules an early state-sync request; the
acknowledgment and error branches are log-only. -/
def handleCmd (now : Nat) : Cmd → SysState → SysState × List OutMsg
  | .setAktuator pin s rc, st => handleSetAktuator pin s rc st
  | .runtimeConfig cfg rawLen, st =>
      ({ saveRuntimeConfig cfg rawLen st with pendingStateSync := true }, [])
  | .refreshConfig, st =>
      (match st.runtimeFile with
       | some cfg => loadRuntimeConfig cfg st
       | none => st, [])
  | .authSuccess, st =>
      ({ st with pendingStateSync := true,
                 lastStateSyncRequest := now - stateSyncRequestInterval + 2000 }, [])
  | .actuatorStateSync ts?, st =>
      (match ts? with
       | some ts => applyActuatorStateSync now ts st
       | none => (st, []))
  | .dataAck _, st => (st, [])
  | .heartbeatAck, st => (st, [])
  | .errorMsg _, st => (st, [])
  | .unknown, st => (st, [])

/-- Embeds `handleServerCommand(const char*)`: an over-long message is
ignored, a failed JSON parse is dropped, otherwise dispatch on `event`. -/
def handleServerCommand (now : Nat) (msg : InMsg) (st : SysState) : SysState × List OutMsg :=
  if msg.len > 1024 then (st, [])
  else
    match msg.decoded with
    | none => (st, [])
    | some c => handleCmd now c st

/-- WebSocket callback event kinds, from `WStype_t`. -/
inductive WsEvent where
  | connected
  | disconnected
  | text (msg : InMsg)
  | errorEvent
  | pong

/-- Embeds `webSocketEvent(WStype_t, uint8_t*, size_t)`.  Any frame longer
than 1024 bytes is rejected before the event switch.  CONNECTED resets the
session failure and protocol error counters, forces ONLINE, clears
`offlineUntil` and sends the `auth` request.  DISCONNECTED increments the
counters and marks every actuator pending-sync; once the session failure
count reaches 5 it enters OFFLINE_SERVER for six hours.  TEXT resets the
protocol error counter and dispatches the command. -/
def webSocketEvent (now : Nat) (len : Nat) (ev : WsEvent) (st : SysState) :
    SysState × List OutMsg :=
  if len > 1024 then (st, [])
  else
    match ev with
    | .connected =>
        ({ st with serverFailCount := 0, consecutiveErrors := 0,
                   mode := .ONLINE, offlineUntil := 0 }, [.auth])
    | .disconnected =>
        let st1 := { st with serverFailCount := st.serverFailCount + 1,
                             consecutiveErrors := st.consecutiveErrors + 1,
                             aktuators := markAllPending st.aktuators,
                             pendingStateSync := true }
        if st1.serverFailCount ≥ 5 then
          ({ st1 with mode := .OFFLINE_SERVER,
                      offlineUntil := now + 6 * 60 * 60 * 1000 }, [])
        else (st1, [])
    | .text msg => handleServerCommand now msg { st with consecutiveErrors := 0 }
    | .errorEvent => ({ st with consecutiveErrors := st.consecutiveErrors + 1 }, [])
    | .pong => (st, [])

/-- Embeds `monitorConnection()`.  With the link down: an ONLINE device
enters OFFLINE_WIFI for 30 minutes, bumping `wifiFailCount` and marking all
actuators pending-sync; a degraded device returns unchanged.  With the link
up: `wifiFailCount` is reset, and at heartbeat time an ONLINE device either
emits the heartbeat (if the socket is connected; `sendOk` is the `sendTXT`
result) or enters OFFLINE_SERVER, bumping `serverFailCount` and marking all
actuators pending-sync, without touching `offlineUntil`. -/
def monitorConnection (now : Nat) (wifiConnected sendOk : Bool) (st : SysState) :
    SysState × List OutMsg :=
  if wifiConnected = false then
    if st.mode = .ONLINE then
      ({ st with wifiFailCount := st.wifiFailCount + 1,
                 mode := .OFFLINE_WIFI,
                 offlineUntil := now + 30 * 60 * 1000,
                 aktuators := markAllPending st.aktuators,
                 pendingStateSync := true }, [])
    else (st, [])
  else
    let st1 := if st.wifiFailCount > 0 then { st with wifiFailCount := 0 } else st
    if st1.mode = .ONLINE ∧ now - st1.lastHeartbeat ≥ heartbeatInterval then
      if st1.wsConnected = true then
        let st2 := if sendOk then { st1 with consecutiveErrors := 0 }
                   else { st1 with consecutiveErrors := st1.consecutiveErrors + 1 }
        ({ st2 with lastHeartbeat := now }, [.heartbeat])
      else
        ({ st1 with mode := .OFFLINE_SERVER,
                    serverFailCount := st1.serverFailCount + 1,
                    aktuators := markAllPending st1.aktuators,
                    pendingStateSync := true,
                    lastHeartbeat := now }, [])
    else (st1, [])

/-- Arduino `map(raw, 2300, 2100, 61, 86)` followed by
`constrain(moisture, 0, 100)`, from `readSoilMoisture`.  C long division
truncates toward zero, hence `Int.tdiv`. -/
def soilMoistureValue (rawValue : Int) : Int :=
  let mapped := Int.tdiv ((rawValue - 2300) * (86 - 61)) (2100 - 2300) + 61
  max 0 (min 100 mapped)

/-- Embeds `readSoilMoisture(int)`: five samples are summed and divided by
the sample count, then calibrated and clamped. -/
def readSoilMoisture (samples : List Int) : Int :=
  soilMoistureValue (Int.tdiv (samples.foldl (· + ·) 0) 5)

/-- The observable action sequence of one emergency watering cycle: pump
on, persist on, ten-second delay, pump off, persist off. -/
def pumpActs (p : Int) : List Act :=
  [.gpioWrite p true, .persistState p true, .delayMs 10000,
   .gpioWrite p false, .persistState p false]

/-- Pin of the first registry entry tagged `pump`, the one the emergency
loop drives (the source breaks after the first match). -/
def firstPumpPin (l : List Aktuator) : Option Int :=
  (l.find? (fun a => a.function == "pump")).map (fun a => a.pin)

/-- Registry update performed by one watering cycle: the driven entry ends
with `state = false` (set true, then false after the delay). -/
def setPumpOff (l : List Aktuator) : List Aktuator :=
  updateFirst (fun a => a.function == "pump") (fun a => { a with state := false }) l

/-- Body of the offline sensor loop of `checkOfflineMode`: an armed
soil-moisture sensor is read through the calibration; below threshold the
first `pump` actuator runs one watering cycle with both transitions
persisted; DHT entries only log.  `adcAvg` is the environment: the averaged
raw ADC value at each pin. -/
def offlineSensorStep (adcAvg : Int → Int) (s : Sensor) (st : SysState) :
    Sensor × SysState × List Act :=
  if s.type = "soil_moisture" ∧ 0 < s.threshold then
    let value := soilMoistureValue (adcAvg s.pin)
    let s1 := { s with value := value }
    if value < s.threshold then
      match firstPumpPin st.aktuators with
      | some p =>
        (s1, { st with aktuators := setPumpOff st.aktuators,
                       gpio := setPin st.gpio p false,
                       persisted := setPin st.persisted p (some false) },
         pumpActs p)
      | none => (s1, st, [])
    else (s1, st, [])
  else (s, st, [])

/-- The offline sensor loop over the registry, threading the state and
concatenating the action traces in order. -/
def offlineLoop (adcAvg : Int → Int) : List Sensor → SysState → List Sensor × SysState × List Act
  | [], st => ([], st, [])
  | s :: ss, st =>
    let r1 := offlineSensorStep adcAvg s st
    let r2 := offlineLoop adcAvg ss r1.2.1
    (r1.1 :: r2.1, r2.2.1, r1.2.2 ++ r2.2.2)

/-- Embeds `checkOfflineMode()`: a no-op while ONLINE; in a degraded mode
the device restarts once `now >= offlineUntil` holds with a nonzero
deadline, and otherwise runs the sensor loop whenever the five-minute
interval has elapsed, stamping `lastMoistureCheck`. -/
def checkOfflineMode (now : Nat) (adcAvg : Int → Int) (st : SysState) : SysState × List Act :=
  if st.mode = .ONLINE then (st, [])
  else if now ≥ st.offlineUntil ∧ 0 < st.offlineUntil then (st, [.restart])
  else if now - st.lastMoistureCheck ≥ moistureInterval then
    let r := offlineLoop adcAvg st.sensors st
    ({ r.2.1 with sensors := r.1, lastMoistureCheck := now }, r.2.2)
  else (st, [])

/-! Concrete states used by the witness and counterexample theorems. -/

/-- A concrete baseline state: freshly online, counters at zero, empty
registries, all GPIO low, no persisted actuator states. -/
def baseState : SysState :=
  { mode := .ONLINE, offlineUntil := 0, lastMoistureCheck := 0, runtimeLoaded := true,
    serverFailCount := 0, wifiFailCount := 0, lastHeartbeat := 0, consecutiveErrors := 0,
    lastStateSyncRequest := 0, lastStateSync := 0, pendingStateSync := false,
    sensors := [], aktuators := [], wsConnected := true,
    gpio := fun _ => false, persisted := fun _ => none, runtimeFile := none }

/-- C1: while ONLINE, a link-down report makes exactly one transition to
OFFLINE_WIFI, setting `offlineUntil = now + 30min`, incrementing
`wifiFailCount` and marking every actuator pending-sync; further link-down
reports in a degraded mode change nothing (so there is one transition per
up-to-down edge). -/
theorem c1_link_down_transition (st : SysState) (now now2 : Nat) (sok sok2 : Bool) :
    (st.mode = .ONLINE →
      (monitorConnection now false sok st).1.mode = .OFFLINE_WIFI ∧
      (monitorConnection now false sok st).1.offlineUntil = now + 30 * 60 * 1000 ∧
      (monitorConnection now false sok st).1.wifiFailCount = st.wifiFailCount + 1 ∧
      (monitorConnection now false sok st).1.pendingStateSync = true ∧
      (∀ a ∈ (monitorConnection now false sok st).1.aktuators, a.pendingStateSync = true) ∧
      monitorConnection now2 false sok2 (monitorConnection now false sok st).1 =
        ((monitorConnection now false sok st).1, [])) ∧
    (st.mode ≠ .ONLINE → monitorConnection now false sok st = (st, [])) := by
  constructor
  · intro h
    simp [monitorConnection, h, markAllPending]
  · intro h
    simp [monitorConnection, h]

/-- C1 witness: the link-down transition evaluated at the baseline state. -/
theorem c1_link_down_transition_witness :
    (monitorConnection 1000 false true baseState).1.mode = .OFFLINE_WIFI ∧
    (monitorConnection 1000 false true baseState).1.offlineUntil = 1000 + 30 * 60 * 1000 ∧
    (monitorConnection 1000 false true baseState).1.wifiFailCount = 1 := by
  have h := (c1_link_down_transition baseState 1000 2000 true true).1 rfl
  exact ⟨h.1, h.2.1, h.2.2.1⟩

/-- C8: an inbound frame longer than 1024 bytes is rejected before the
event switch with no state change and no output, and a text payload whose
JSON decode fails is dropped with no state change and no output. -/
theorem c8_inbound_frame_limits (st : SysState) (now len : Nat) (ev : WsEvent) (msg : InMsg) :
    (len > 1024 → webSocketEvent now len ev st = (st, [])) ∧
    (msg.decoded = none → handleServerCommand now msg st = (st, [])) := by
  constructor
  · intro h
    simp [webSocketEvent, h]
  · intro h
    simp [handleServerCommand, h]

/-- C8 witness: a 2000-byte command frame and an unparseable 500-byte
payload, both at the baseline state. -/
theorem c8_inbound_frame_limits_witness :
    webSocketEvent 0 2000 (.text ⟨2000, some .unknown⟩) baseState = (baseState, []) ∧
    handleServerCommand 0 ⟨500, none⟩ baseState = (baseState, []) :=
  ⟨(c8_inbound_frame_limits baseState 0 2000 (.text ⟨2000, some .unknown⟩)
      ⟨500, none⟩).1 (by decide),
   (c8_inbound_frame_limits baseState 0 2000 (.text ⟨2000, some .unknown⟩)
      ⟨500, none⟩).2 rfl⟩

/-! Preservation lemmas shared by several claims. -/

/-- Per-tuple state-sync processing never changes the mode. -/
lemma processTuple_mode (t : SyncTuple) (st : SysState) :
    (processTuple t st).1.mode = st.mode := by
  unfold processTuple
  split
  · rfl
  · split <;> rfl

/-- State-sync list processing never changes the mode. -/
lemma applySyncList_mode : ∀ (ts : List SyncTuple) (st : SysState),
    (applySyncList ts st).1.mode = st.mode
  | [], _ => rfl
  | t :: ts, st => by
      simp [applySyncList, applySyncList_mode ts, processTuple_mode]

/-- The runtime-config loader never changes the mode. -/
lemma loadRuntimeConfig_mode (cfg : RuntimeCfg) (st : SysState) :
    (loadRuntimeConfig cfg st).mode = st.mode := rfl

/-- One offline sensor step emits either no actions or one watering
cycle. -/
lemma offlineSensorStep_trace (adc : Int → Int) (s : Sensor) (st : SysState) :
    (offlineSensorStep adc s st).2.2 = [] ∨
    ∃ p, (offlineSensorStep adc s st).2.2 = pumpActs p := by
  by_cases h1 : s.type = "soil_moisture" ∧ 0 < s.threshold
  · by_cases h2 : soilMoistureValue (adc s.pin) < s.threshold
    · cases h3 : firstPumpPin st.aktuators with
      | some p => exact Or.inr ⟨p, by simp [offlineSensorStep, h1, h2, h3]⟩
      | none => exact Or.inl (by simp [offlineSensorStep, h1, h2, h3])
    · exact Or.inl (by simp [offlineSensorStep, h1, h2])
  · exact Or.inl (by simp [offlineSensorStep, h1])

/-- The restart action never occurs in the offline sensor loop trace. -/
lemma restart_not_mem_offlineLoop (adc : Int → Int) :
    ∀ (ss : List Sensor) (st : SysState), Act.restart ∉ (offlineLoop adc ss st).2.2
  | [], _ => by simp [offlineLoop]
  | s :: ss, st => by
      simp only [offlineLoop, List.mem_append, not_or]
      refine ⟨?_, restart_not_mem_offlineLoop adc ss _⟩
      rcases offlineSensorStep_trace adc s st with h | ⟨p, h⟩ <;>
        simp [h, pumpActs]

/-! Claim C2. -/

/-- C2 counterexample: from ONLINE with a zero failure counter, one
websocket disconnect (failure 1) leaves the mode ONLINE, but the very next
heartbeat-time check that finds the socket still disconnected moves the
device to OFFLINE_SERVER at failure count 2 with `offlineUntil` still 0 —
so a session failure other than the 5th triggers Online to OfflineSession,
and without setting `offlineUntil = now + 6h`. -/
theorem c2_heartbeat_path_counterexample :
    (monitorConnection 31000 true true
        (webSocketEvent 1000 0 .disconnected { baseState with wsConnected := false }).1).1.mode
      = .OFFLINE_SERVER ∧
    (monitorConnection 31000 true true
        (webSocketEvent 1000 0 .disconnected { baseState with wsConnected := false }).1).1.serverFailCount
      = 2 ∧
    (monitorConnection 31000 true true
        (webSocketEvent 1000 0 .disconnected { baseState with wsConnected := false }).1).1.offlineUntil
      = 0 :=
  ⟨rfl, rfl, rfl⟩

/-- C2 amended: restricted to websocket disconnect events, failures 1-4
since the last socket connect leave the mode and `offlineUntil` unchanged,
the 5th moves ONLINE to OFFLINE_SERVER with `offlineUntil = now + 6h` and
every actuator marked pending-sync, and a socket connect resets the
failure counter to 0; in addition, the heartbeat-time check moves ONLINE to
OFFLINE_SERVER whenever the socket is found disconnected, at any failure
count, incrementing the counter and leaving `offlineUntil` unchanged. -/
theorem c2_session_failure_threshold (st : SysState) (now len : Nat) (sok : Bool) :
    (st.mode = .ONLINE → len ≤ 1024 → st.serverFailCount + 1 < 5 →
      (webSocketEvent now len .disconnected st).1.mode = .ONLINE ∧
      (webSocketEvent now len .disconnected st).1.offlineUntil = st.offlineUntil ∧
      (webSocketEvent now len .disconnected st).1.serverFailCount = st.serverFailCount + 1) ∧
    (st.mode = .ONLINE → len ≤ 1024 → st.serverFailCount + 1 = 5 →
      (webSocketEvent now len .disconnected st).1.mode = .OFFLINE_SERVER ∧
      (webSocketEvent now len .disconnected st).1.offlineUntil = now + 6 * 60 * 60 * 1000 ∧
      (∀ a ∈ (webSocketEvent now len .disconnected st).1.aktuators,
        a.pendingStateSync = true)) ∧
    (len ≤ 1024 → (webSocketEvent now len .connected st).1.serverFailCount = 0) ∧
    (st.mode = .ONLINE → st.wsConnected = false →
      now - st.lastHeartbeat ≥ heartbeatInterval →
      (monitorConnection now true sok st).1.mode = .OFFLINE_SERVER ∧
      (monitorConnection now true sok st).1.serverFailCount = st.serverFailCount + 1 ∧
      (monitorConnection now true sok st).1.offlineUntil = st.offlineUntil) := by
  refine ⟨?_, ?_, ?_, ?_⟩
  · intro hm hlen hc
    have hl : ¬ (len > 1024) := by omega
    have h5 : ¬ (st.serverFailCount + 1 ≥ 5) := by omega
    simp [webSocketEvent, hl, h5, hm]
  · intro hm hlen hc
    have hl : ¬ (len > 1024) := by omega
    have h5 : st.serverFailCount + 1 ≥ 5 := by omega
    simp [webSocketEvent, hl, h5, markAllPending]
  · intro hlen
    have hl : ¬ (len > 1024) := by omega
    simp [webSocketEvent, hl]
  · intro hm hws hhb
    by_cases hw : st.wifiFailCount > 0 <;>
      simp [monitorConnection, hw, hm, hws, hhb]

/-- C2 amended witness: the 5th disconnect evaluated at a state with four
accumulated failures. -/
theorem c2_session_failure_threshold_witness :
    (webSocketEvent 7 0 .disconnected
        { baseState with serverFailCount := 4, wsConnected := false }).1.mode
      = .OFFLINE_SERVER ∧
    (webSocketEvent 7 0 .disconnected
        { baseState with serverFailCount := 4, wsConnected := false }).1.offlineUntil
      = 7 + 6 * 60 * 60 * 1000 := by
  have h := (c2_session_failure_threshold
    { baseState with serverFailCount := 4, wsConnected := false } 7 0 true).2.1
    rfl (by decide) rfl
  exact ⟨h.1, h.2.1⟩

/-! Claim C3. -/

/-- Degraded state reached through the heartbeat-time check, used by the
C3 counterexample: the entry leaves `offlineUntil` at 0. -/
def c3EntryState : SysState :=
  (monitorConnection 31000 true true
    { baseState with wsConnected := false, lastMoistureCheck := 1000000 }).1

/-- C3 counterexample: the heartbeat-time check enters the degraded mode
OFFLINE_SERVER with `offlineUntil = 0` (no positive deadline), and a later
`checkOfflineMode` tick performs no restart even though `now` is past the
(zero) deadline — this degraded episode never ends in a restart. -/
theorem c3_offline_deadline_counterexample :
    c3EntryState.mode = .OFFLINE_SERVER ∧
    c3EntryState.offlineUntil = 0 ∧
    (checkOfflineMode 31000 (fun _ => 0) c3EntryState).2 = [] ∧
    (checkOfflineMode 31000 (fun _ => 0) c3EntryState).1.mode = .OFFLINE_SERVER :=
  ⟨rfl, rfl, rfl, rfl⟩

/-- C3 amended: the link-down entry and the 5th-failure disconnect entry
into a degraded mode set positive deadlines (now+30min, now+6h), and the
socket-connect return to ONLINE clears `offlineUntil`; in a degraded mode a
restart happens exactly when `now >= offlineUntil` and the deadline is
nonzero; the heartbeat-time entry into OFFLINE_SERVER leaves `offlineUntil`
unchanged, so an episode entered that way with the deadline cleared never
schedules a restart. -/
theorem c3_offline_deadline (st : SysState) (now len : Nat) (sok : Bool) (adc : Int → Int) :
    (st.mode = .ONLINE →
      (monitorConnection now false sok st).1.mode = .OFFLINE_WIFI ∧
      (monitorConnection now false sok st).1.offlineUntil = now + 30 * 60 * 1000) ∧
    (st.mode = .ONLINE → len ≤ 1024 → st.serverFailCount + 1 ≥ 5 →
      (webSocketEvent now len .disconnected st).1.mode = .OFFLINE_SERVER ∧
      (webSocketEvent now len .disconnected st).1.offlineUntil = now + 6 * 60 * 60 * 1000) ∧
    (len ≤ 1024 →
      (webSocketEvent now len .connected st).1.mode = .ONLINE ∧
      (webSocketEvent now len .connected st).1.offlineUntil = 0) ∧
    (st.mode ≠ .ONLINE →
      (Act.restart ∈ (checkOfflineMode now adc st).2 ↔
        now ≥ st.offlineUntil ∧ 0 < st.offlineUntil)) ∧
    (st.mode = .ONLINE → st.wsConnected = false →
      now - st.lastHeartbeat ≥ heartbeatInterval →
      (monitorConnection now true sok st).1.mode = .OFFLINE_SERVER ∧
      (monitorConnection now true sok st).1.offlineUntil = st.offlineUntil) := by
  refine ⟨?_, ?_, ?_, ?_, ?_⟩
  · intro hm
    simp [monitorConnection, hm]
  · intro hm hlen h5
    have hl : ¬ (len > 1024) := by omega
    simp [webSocketEvent, hl, h5, hm]
  · intro hlen
    have hl : ¬ (len > 1024) := by omega
    simp [webSocketEvent, hl]
  · intro hm
    unfold checkOfflineMode
    rw [if_neg hm]
    by_cases hc : now ≥ st.offlineUntil ∧ 0 < st.offlineUntil
    · rw [if_pos hc]
      simp [hc]
    · rw [if_neg hc]
      by_cases hi : now - st.lastMoistureCheck ≥ moistureInterval
      · rw [if_pos hi]
        simp [restart_not_mem_offlineLoop adc st.sensors st, hc]
      · rw [if_neg hi]
        simp [hc]
  · intro hm hws hhb
    by_cases hw : st.wifiFailCount > 0 <;>
      simp [monitorConnection, hw, hm, hws, hhb]

/-- C3 amended witness: a degraded state with a positive deadline restarts
once the deadline has passed. -/
theorem c3_offline_deadline_witness :
    Act.restart ∈ (checkOfflineMode 600 (fun _ => 0)
      { baseState with mode := .OFFLINE_SERVER, offlineUntil := 500 }).2 := by
  have h := (c3_offline_deadline
    { baseState with mode := .OFFLINE_SERVER, offlineUntil := 500 } 600 0 true
    (fun _ => 0)).2.2.2.1 (by decide)
  exact h.mpr ⟨by decide, by decide⟩

/-- No inbound command ever changes the mode: command dispatch only
touches the registries, the sync bookkeeping and the persisted files. -/
lemma handleCmd_mode (now : Nat) (c : Cmd) (st : SysState) :
    (handleCmd now c st).1.mode = st.mode := by
  cases c with
  | setAktuator pin s rc =>
      simp only [handleCmd]
      unfold handleSetAktuator
      split
      · rfl
      · split <;> rfl
  | runtimeConfig cfg rawLen =>
      simp only [handleCmd]
      unfold saveRuntimeConfig
      split <;> rfl
  | refreshConfig =>
      simp only [handleCmd]
      split <;> rfl
  | authSuccess => rfl
  | actuatorStateSync ts? =>
      cases ts? with
      | some ts =>
          simp only [handleCmd]
          simpa [applyActuatorStateSync] using applySyncList_mode ts st
      | none => rfl
  | dataAck p => rfl
  | heartbeatAck => rfl
  | errorMsg m => rfl
  | unknown => rfl

/-! Claim C4. -/

/-- C4 counterexample: from OFFLINE_SERVER, the bare socket connect event
already moves the mode to ONLINE and only then emits the `auth` request —
so the device is Online at a moment when the token handshake has only been
initiated, not completed; the `auth_success` command itself does not change
the mode. -/
theorem c4_online_entry_counterexample :
    (webSocketEvent 2000 0 .connected
        { baseState with mode := .OFFLINE_SERVER, offlineUntil := 123456,
                         serverFailCount := 5 }).1.mode = .ONLINE ∧
    (webSocketEvent 2000 0 .connected
        { baseState with mode := .OFFLINE_SERVER, offlineUntil := 123456,
                         serverFailCount := 5 }).2 = [.auth] ∧
    (handleCmd 2000 .authSuccess
        { baseState with mode := .OFFLINE_SERVER, offlineUntil := 123456,
                         serverFailCount := 5 }).1.mode = .OFFLINE_SERVER :=
  ⟨rfl, rfl, rfl⟩

/-- C4 amended: the degraded-to-Online transition is triggered by the
socket connect event itself, which resets `serverFailCount` and
`consecutiveErrors` to 0, clears `offlineUntil`, and immediately emits the
`auth` request (so the device is Online before authentication completes);
mere link recovery leaves a degraded mode unchanged (only resetting
`wifiFailCount`); and no inbound command — `auth_success` included — ever
changes the mode. -/
theorem c4_online_entry (st : SysState) (now len : Nat) (sok : Bool) (c : Cmd) :
    (len ≤ 1024 →
      (webSocketEvent now len .connected st).1.mode = .ONLINE ∧
      (webSocketEvent now len .connected st).1.serverFailCount = 0 ∧
      (webSocketEvent now len .connected st).1.consecutiveErrors = 0 ∧
      (webSocketEvent now len .connected st).1.offlineUntil = 0 ∧
      (webSocketEvent now len .connected st).2 = [.auth]) ∧
    (st.mode ≠ .ONLINE → (monitorConnection now true sok st).1.mode = st.mode) ∧
    ((monitorConnection now true sok st).1.wifiFailCount = 0 ∨
      (monitorConnection now true sok st).1.wifiFailCount = st.wifiFailCount) ∧
    ((handleCmd now c st).1.mode = st.mode) := by
  refine ⟨?_, ?_, ?_, ?_⟩
  · intro hlen
    have hl : ¬ (len > 1024) := by omega
    simp [webSocketEvent, hl]
  · intro hm
    by_cases hw : st.wifiFailCount > 0 <;>
      by_cases hb : now - st.lastHeartbeat ≥ heartbeatInterval <;>
        simp [monitorConnection, hw, hb, hm]
  · by_cases hw : st.wifiFailCount > 0
    · left
      by_cases hm : st.mode = .ONLINE <;>
        by_cases hb : now - st.lastHeartbeat ≥ heartbeatInterval <;>
          by_cases hws : st.wsConnected = true <;>
            cases sok <;>
              simp [monitorConnection, hw, hm, hb, hws]
    · right
      by_cases hm : st.mode = .ONLINE <;>
        by_cases hb : now - st.lastHeartbeat ≥ heartbeatInterval <;>
          by_cases hws : st.wsConnected = true <;>
            cases sok <;>
              simp [monitorConnection, hw, hm, hb, hws]
  · exact handleCmd_mode now c st

/-- C4 amended witness: socket connect at a concrete degraded state. -/
theorem c4_online_entry_witness :
    (webSocketEvent 3000 10 .connected
        { baseState with mode := .OFFLINE_WIFI, offlineUntil := 777 }).1.mode = .ONLINE ∧
    (webSocketEvent 3000 10 .connected
        { baseState with mode := .OFFLINE_WIFI, offlineUntil := 777 }).1.offlineUntil = 0 := by
  have h := (c4_online_entry
    { baseState with mode := .OFFLINE_WIFI, offlineUntil := 777 } 3000 10 true
    .unknown).1 (by decide)
  exact ⟨h.1, h.2.2.2.1⟩

/-- Looking up the first match after updating the first match returns the
updated element, provided the update preserves the predicate. -/
lemma find?_updateFirst {α : Type} (p : α → Bool) (f : α → α)
    (hf : ∀ a, p a = true → p (f a) = true) :
    ∀ l : List α, (updateFirst p f l).find? p = (l.find? p).map f
  | [] => rfl
  | a :: as => by
      by_cases h : p a = true
      · rw [updateFirst, if_pos h, List.find?_cons_of_pos _ (hf a h),
            List.find?_cons_of_pos _ h, Option.map_some']
      · rw [updateFirst, if_neg h, List.find?_cons_of_neg _ h,
            List.find?_cons_of_neg _ h, find?_updateFirst p f hf as]

/-! Claim C5. -/

/-- C5: applying a state-sync tuple whose expected state already equals
the physical GPIO level of the matched actuator changes neither the GPIO
map nor the persisted record, still clears the pendingSync flag of the
first matching actuator, and still emits a success confirmation; a tuple
whose pin matches no configured actuator is skipped: registry, GPIO and
persisted record unchanged and no confirmation emitted. -/
theorem c5_state_sync_idempotent (st : SysState) (now : Nat) (t : SyncTuple) :
    st.mode = .ONLINE → st.wsConnected = true →
    (((st.aktuators.find? (fun a => a.pin == t.pin)).isSome →
      st.gpio t.pin = t.state →
      (applyActuatorStateSync now [t] st).1.gpio = st.gpio ∧
      (applyActuatorStateSync now [t] st).1.persisted = st.persisted ∧
      (applyActuatorStateSync now [t] st).2 = [.confirm t.pin t.state true] ∧
      (applyActuatorStateSync now [t] st).1.aktuators.find? (fun a => a.pin == t.pin) =
        (st.aktuators.find? (fun a => a.pin == t.pin)).map
          (fun a => { a with pendingStateSync := false })) ∧
     (st.aktuators.find? (fun a => a.pin == t.pin) = none →
      (applyActuatorStateSync now [t] st).1.aktuators = st.aktuators ∧
      (applyActuatorStateSync now [t] st).1.gpio = st.gpio ∧
      (applyActuatorStateSync now [t] st).1.persisted = st.persisted ∧
      (applyActuatorStateSync now [t] st).2 = [])) := by
  intro hm hws
  constructor
  · intro hfind hgpio
    obtain ⟨a, ha⟩ := Option.isSome_iff_exists.mp hfind
    have hfu := find?_updateFirst (fun a => a.pin == t.pin)
      (fun a => { a with pendingStateSync := false }) (fun _ h => h) st.aktuators
    simp [applyActuatorStateSync, applySyncList, processTuple, ha, hgpio,
          confirmActuatorState, hm, hws, hfu]
  · intro hnone
    simp [applyActuatorStateSync, applySyncList, processTuple, hnone]

/-- C5 witness: a matching tuple already equal to the physical state at
pin 5, and an unmatched tuple at pin 9. -/
theorem c5_state_sync_idempotent_witness :
    (applyActuatorStateSync 100 [⟨5, "pump", true⟩]
        { baseState with aktuators := [⟨"pump", 5, true, true⟩],
                         gpio := setPin (fun _ => false) 5 true }).2
      = [.confirm 5 true true] ∧
    (applyActuatorStateSync 100 [⟨9, "fan", true⟩]
        { baseState with aktuators := [⟨"pump", 5, true, true⟩],
                         gpio := setPin (fun _ => false) 5 true }).2
      = [] := by
  constructor
  · exact (((c5_state_sync_idempotent
      { baseState with aktuators := [⟨"pump", 5, true, true⟩],
                       gpio := setPin (fun _ => false) 5 true } 100
      ⟨5, "pump", true⟩) rfl rfl).1 (by decide) (by decide)).2.2.1
  · exact (((c5_state_sync_idempotent
      { baseState with aktuators := [⟨"pump", 5, true, true⟩],
                       gpio := setPin (fun _ => false) 5 true } 100
      ⟨9, "fan", true⟩) rfl rfl).2 (by decide)).2.2.2

/-! Claim C7. -/

/-- C7: a `set_aktuator` with confirmation requested and an out-of-range
or unmatched pin leaves the whole state untouched and emits a failure
confirmation; a matched pin drives the GPIO, updates and persists the
actuator state, clears its pendingSync flag and emits a success
confirmation; with confirmation not requested nothing is emitted. -/
theorem c7_set_aktuator_validation (st : SysState) (pin : Int) (s : Bool) :
    st.mode = .ONLINE → st.wsConnected = true →
    (((pin < 0 ∨ pin > 39) →
       handleSetAktuator pin s true st = (st, [.confirm pin s false])) ∧
     (¬(pin < 0 ∨ pin > 39) → st.aktuators.find? (fun a => a.pin == pin) = none →
       handleSetAktuator pin s true st = (st, [.confirm pin s false])) ∧
     (¬(pin < 0 ∨ pin > 39) → (st.aktuators.find? (fun a => a.pin == pin)).isSome →
       (handleSetAktuator pin s true st).1.gpio pin = s ∧
       (handleSetAktuator pin s true st).1.persisted pin = some s ∧
       (handleSetAktuator pin s true st).1.aktuators.find? (fun a => a.pin == pin) =
         (st.aktuators.find? (fun a => a.pin == pin)).map
           (fun a => { a with state := s, pendingStateSync := false }) ∧
       (handleSetAktuator pin s true st).2 = [.confirm pin s true]) ∧
     ((handleSetAktuator pin s false st).2 = [])) := by
  intro hm hws
  refine ⟨?_, ?_, ?_, ?_⟩
  · intro hrange
    simp [handleSetAktuator, hrange, confirmActuatorState, hm, hws]
  · intro hrange hnone
    simp [handleSetAktuator, hrange, hnone, confirmActuatorState, hm, hws]
  · intro hrange hfind
    simp only [handleSetAktuator, if_neg hrange, hfind, if_pos rfl, if_true,
               confirmActuatorState, hm, hws, saveActuatorState]
    refine ⟨by simp [setPin], by simp [setPin], ?_, by simp⟩
    exact find?_updateFirst (fun a => a.pin == pin)
      (fun a => { a with state := s, pendingStateSync := false }) (fun _ h => h) st.aktuators
  · unfold handleSetAktuator
    split
    · rfl
    · split <;> rfl

/-- C7 witness: the spec scenario — pin 12, confirmation requested, no
configured actuator — yields a failure confirmation and no state change,
at the baseline state. -/
theorem c7_set_aktuator_validation_witness :
    handleSetAktuator 12 true true baseState = (baseState, [.confirm 12 true false]) :=
  ((c7_set_aktuator_validation baseState 12 true) rfl rfl).2.1 (by decide) rfl

/-! Lemmas about the runtime-configuration loader. -/

/-- The actuator loader keeps exactly the valid payload entries, in payload
order, identified by function tag and pin. -/
lemma loadAktuators_pairs : ∀ (cs : List AktuatorCfg) (g : Int → Bool),
    (loadAktuators cs g).1.map (fun a => (a.function, a.pin)) =
      (cs.filter (fun c => !decide (c.pin < 0 ∨ c.pin > 39))).map
        (fun c => (c.function, c.pin))
  | [], _ => rfl
  | c :: cs, g => by
      by_cases h : c.pin < 0 ∨ c.pin > 39
      · have h2 : ¬ (0 ≤ c.pin ∧ c.pin ≤ 39) := by omega
        simp [loadAktuators, h, h2, List.filter_cons, loadAktuators_pairs cs g]
      · have h2 : 0 ≤ c.pin ∧ c.pin ≤ 39 := by omega
        simp [loadAktuators, h, h2, List.filter_cons,
              loadAktuators_pairs cs (setPin g c.pin (c.current_state.getD false))]

/-- Every actuator kept by the loader has a pin in the GPIO range. -/
lemma loadAktuators_pins : ∀ (cs : List AktuatorCfg) (g : Int → Bool),
    ∀ a ∈ (loadAktuators cs g).1, 0 ≤ a.pin ∧ a.pin ≤ 39
  | [], _ => by simp [loadAktuators]
  | c :: cs, g => by
      by_cases h : c.pin < 0 ∨ c.pin > 39
      · simpa [loadAktuators, h] using loadAktuators_pins cs g
      · intro a ha
        simp only [loadAktuators, if_neg h, List.mem_cons] at ha
        rcases ha with rfl | ha
        · push_neg at h
          exact ⟨show (0 : Int) ≤ c.pin by omega, show c.pin ≤ (39 : Int) by omega⟩
        · exact loadAktuators_pins cs (setPin g c.pin (c.current_state.getD false)) a ha


/-- Applying the persisted states preserves every function tag and pin. -/
lemma applySavedStates_pairs (persisted : Int → Option Bool) :
    ∀ (l : List Aktuator) (g : Int → Bool),
      (applySavedStates persisted l g).1.map (fun a => (a.function, a.pin)) =
        l.map (fun a => (a.function, a.pin))
  | [], _ => rfl
  | a :: as, g => by
      cases h : persisted a.pin with
      | some s =>
          simp [applySavedStates, h, applySavedStates_pairs persisted as (setPin g a.pin s)]
      | none =>
          simp [applySavedStates, h, applySavedStates_pairs persisted as g]

/-- Applying the persisted states preserves the pin list. -/
lemma applySavedStates_pinList (persisted : Int → Option Bool) :
    ∀ (l : List Aktuator) (g : Int → Bool),
      (applySavedStates persisted l g).1.map (fun a => a.pin) = l.map (fun a => a.pin)
  | [], _ => rfl
  | a :: as, g => by
      cases h : persisted a.pin with
      | some s =>
          simp [applySavedStates, h, applySavedStates_pinList persisted as (setPin g a.pin s)]
      | none =>
          simp [applySavedStates, h, applySavedStates_pinList persisted as g]

/-- After applying the persisted states, every registry entry whose pin has
a persisted boolean carries exactly that boolean. -/
lemma applySavedStates_state_at (persisted : Int → Option Bool) (p : Int) (b : Bool)
    (hp : persisted p = some b) :
    ∀ (l : List Aktuator) (g : Int → Bool),
      ∀ x ∈ (applySavedStates persisted l g).1, x.pin = p → x.state = b
  | [], _ => by simp [applySavedStates]
  | a :: as, g => by
      intro x hx hxp
      cases h : persisted a.pin with
      | some s =>
          simp only [applySavedStates, h, List.mem_cons] at hx
          rcases hx with rfl | hx
          · have hap : a.pin = p := hxp
            rw [hap, hp] at h
            exact (Option.some_injective Bool h).symm
          · exact applySavedStates_state_at persisted p b hp as (setPin g a.pin s) x hx hxp
      | none =>
          simp only [applySavedStates, h, List.mem_cons] at hx
          rcases hx with rfl | hx
          · rw [hxp, hp] at h
            exact absurd h (by simp)
          · exact applySavedStates_state_at persisted p b hp as g x hx hxp

/-- After applying the persisted states, the GPIO level at a persisted pin
is the persisted boolean whenever some registry entry has that pin, and is
otherwise untouched. -/
lemma applySavedStates_gpio_at (persisted : Int → Option Bool) (p : Int) (b : Bool)
    (hp : persisted p = some b) :
    ∀ (l : List Aktuator) (g : Int → Bool),
      (applySavedStates persisted l g).2 p = if ∃ a ∈ l, a.pin = p then b else g p
  | [], g => by simp [applySavedStates]
  | a :: as, g => by
      by_cases hap : a.pin = p
      · have h : persisted a.pin = some b := by rw [hap, hp]
        rw [applySavedStates]
        simp only [h]
        rw [applySavedStates_gpio_at persisted p b hp as (setPin g a.pin b)]
        by_cases hex : ∃ x ∈ as, x.pin = p
        · simp [hex, hap]
        · simp [hex, hap, setPin]
      · have hpa : ¬ p = a.pin := fun hh => hap hh.symm
        cases h : persisted a.pin with
        | some s =>
            rw [applySavedStates]
            simp only [h]
            rw [applySavedStates_gpio_at persisted p b hp as (setPin g a.pin s)]
            by_cases hex : ∃ x ∈ as, x.pin = p
            · simp [hex, hap]
            · simp [hex, hap, setPin, hpa]
        | none =>
            rw [applySavedStates]
            simp only [h]
            rw [applySavedStates_gpio_at persisted p b hp as g]
            by_cases hex : ∃ x ∈ as, x.pin = p
            · simp [hex, hap]
            · simp [hex, hap]

/-- Every sensor produced from one config entry has a pin in range. -/
lemma loadSensorEntry_pins (c : SensorCfg) :
    ∀ s ∈ loadSensorEntry c, 0 ≤ s.pin ∧ s.pin ≤ 39 := by
  intro s hs
  by_cases h : c.pin < 0 ∨ c.pin > 39
  · simp [loadSensorEntry, h] at hs
  · have hb : 0 ≤ c.pin ∧ c.pin ≤ 39 := by omega
    by_cases h2 : c.type = "dht11" <;>
      simp only [loadSensorEntry, if_neg h, h2, if_true, if_false, ite_true, ite_false,
                 List.mem_cons, List.mem_singleton, List.not_mem_nil, or_false] at hs
    · rcases hs with rfl | rfl <;>
        exact ⟨show (0 : Int) ≤ c.pin from hb.1, show c.pin ≤ (39 : Int) from hb.2⟩
    · rcases hs with rfl
      exact ⟨show (0 : Int) ≤ c.pin from hb.1, show c.pin ≤ (39 : Int) from hb.2⟩

/-- Every sensor kept by the loader has a pin in range. -/
lemma loadSensors_pins (cs : List SensorCfg) :
    ∀ s ∈ loadSensors cs, 0 ≤ s.pin ∧ s.pin ≤ 39 := by
  intro s hs
  simp only [loadSensors, List.mem_flatten, List.mem_map] at hs
  obtain ⟨l, ⟨c, _, rfl⟩, hsl⟩ := hs
  exact loadSensorEntry_pins c s hsl

/-- Runtime-config payload with two actuator entries sharing pin 5, used
by the C9 counterexample. -/
def c9Cfg : RuntimeCfg :=
  ⟨none, some [⟨"pump", 5, some false⟩, ⟨"fan", 5, some true⟩]⟩

/-- C9 counterexample: a payload listing two entries for pin 5 loads a
registry holding two ActuatorSpecs on pin 5 (no deduplication), and
pin-keyed lookups return the first loaded entry, not the last. -/
theorem c9_duplicate_pin_counterexample :
    (loadRuntimeConfig c9Cfg baseState).aktuators.map (fun a => a.pin) = [5, 5] ∧
    ¬ List.Pairwise (fun a b => a.pin ≠ b.pin) (loadRuntimeConfig c9Cfg baseState).aktuators ∧
    ((loadRuntimeConfig c9Cfg baseState).aktuators.find? (fun a => a.pin == 5)).map
        (fun a => a.function) = some "pump" := by
  refine ⟨rfl, ?_, rfl⟩
  decide

/-- C9 amended: every loaded actuator and sensor pin lies in the GPIO
range 0-39 and an out-of-range entry is skipped while the rest of the load
proceeds, but the registry keeps every valid payload entry in payload
order — duplicates of the same pin included, with pin-keyed lookups hitting
the earliest loaded entry rather than the last. -/
theorem c9_registry_load (cfg : RuntimeCfg) (st : SysState) :
    (∀ a ∈ (loadRuntimeConfig cfg st).aktuators, 0 ≤ a.pin ∧ a.pin ≤ 39) ∧
    (∀ s ∈ (loadRuntimeConfig cfg st).sensors, 0 ≤ s.pin ∧ s.pin ≤ 39) ∧
    ((loadRuntimeConfig cfg st).aktuators.map (fun a => (a.function, a.pin)) =
      ((cfg.aktuators.getD []).filter (fun c => !decide (c.pin < 0 ∨ c.pin > 39))).map
        (fun c => (c.function, c.pin))) := by
  refine ⟨?_, ?_, ?_⟩
  · intro a ha
    have hpairs := applySavedStates_pairs st.persisted
      (loadAktuators (cfg.aktuators.getD []) st.gpio).1
      (loadAktuators (cfg.aktuators.getD []) st.gpio).2
    have hmem : (a.function, a.pin) ∈
        (loadAktuators (cfg.aktuators.getD []) st.gpio).1.map
          (fun a => (a.function, a.pin)) := by
      rw [← hpairs]
      exact List.mem_map_of_mem _ ha
    obtain ⟨x, hx, hxe⟩ := List.mem_map.mp hmem
    have hrange := loadAktuators_pins (cfg.aktuators.getD []) st.gpio x hx
    have hpin : x.pin = a.pin := congrArg Prod.snd hxe
    rw [hpin] at hrange
    exact hrange
  · intro s hs
    exact loadSensors_pins (cfg.sensors.getD []) s hs
  · calc (loadRuntimeConfig cfg st).aktuators.map (fun a => (a.function, a.pin))
        = (loadAktuators (cfg.aktuators.getD []) st.gpio).1.map
            (fun a => (a.function, a.pin)) :=
          applySavedStates_pairs st.persisted
            (loadAktuators (cfg.aktuators.getD []) st.gpio).1
            (loadAktuators (cfg.aktuators.getD []) st.gpio).2
      _ = ((cfg.aktuators.getD []).filter (fun c => !decide (c.pin < 0 ∨ c.pin > 39))).map
            (fun c => (c.function, c.pin)) :=
          loadAktuators_pairs (cfg.aktuators.getD []) st.gpio

/-- C9 amended witness: the amended load facts at the duplicate-pin
payload. -/
theorem c9_registry_load_witness :
    (loadRuntimeConfig c9Cfg baseState).aktuators.map (fun a => (a.function, a.pin)) =
      [("pump", 5), ("fan", 5)] := by
  have h := (c9_registry_load c9Cfg baseState).2.2
  simpa [c9Cfg] using h

/-- C10: after a runtime-config load, every pin present in the persisted
actuator-state record ends with the persisted boolean — not the payload
`current_state` — as its in-memory actuator state and its GPIO level. -/
theorem c10_persisted_state_wins (cfg : RuntimeCfg) (st : SysState) (p : Int) (b : Bool) :
    st.persisted p = some b →
    ((∀ a ∈ (loadRuntimeConfig cfg st).aktuators, a.pin = p → a.state = b) ∧
     ((∃ a ∈ (loadRuntimeConfig cfg st).aktuators, a.pin = p) →
       (loadRuntimeConfig cfg st).gpio p = b)) := by
  intro hp
  constructor
  · intro a ha hap
    exact applySavedStates_state_at st.persisted p b hp
      (loadAktuators (cfg.aktuators.getD []) st.gpio).1
      (loadAktuators (cfg.aktuators.getD []) st.gpio).2 a ha hap
  · intro hex
    have hpl := applySavedStates_pinList st.persisted
      (loadAktuators (cfg.aktuators.getD []) st.gpio).1
      (loadAktuators (cfg.aktuators.getD []) st.gpio).2
    have hex2 : ∃ x ∈ (loadAktuators (cfg.aktuators.getD []) st.gpio).1, x.pin = p := by
      obtain ⟨a, ha, hap⟩ := hex
      have hmem : p ∈ (applySavedStates st.persisted
          (loadAktuators (cfg.aktuators.getD []) st.gpio).1
          (loadAktuators (cfg.aktuators.getD []) st.gpio).2).1.map (fun a => a.pin) :=
        List.mem_map.mpr ⟨a, ha, hap⟩
      rw [hpl] at hmem
      exact List.mem_map.mp hmem
    have hg := applySavedStates_gpio_at st.persisted p b hp
      (loadAktuators (cfg.aktuators.getD []) st.gpio).1
      (loadAktuators (cfg.aktuators.getD []) st.gpio).2
    show (applySavedStates st.persisted
      (loadAktuators (cfg.aktuators.getD []) st.gpio).1
      (loadAktuators (cfg.aktuators.getD []) st.gpio).2).2 p = b
    rw [hg, if_pos hex2]

/-- C10 witness: a payload initializing pin 7 to true while the persisted
record says false — the load ends with pin 7 at false. -/
theorem c10_persisted_state_wins_witness :
    (loadRuntimeConfig ⟨none, some [⟨"pump", 7, some true⟩]⟩
        { baseState with persisted := setPin (fun _ => none) 7 (some false) }).gpio 7
      = false := by
  have h := (c10_persisted_state_wins ⟨none, some [⟨"pump", 7, some true⟩]⟩
    { baseState with persisted := setPin (fun _ => none) 7 (some false) } 7 false rfl).2
  exact h ⟨⟨"pump", 7, false, true⟩, by decide, rfl⟩

/-- Turning the first pump entry off does not change which entry is the
first pump, nor its pin. -/
lemma firstPumpPin_setPumpOff (l : List Aktuator) :
    firstPumpPin (setPumpOff l) = firstPumpPin l := by
  unfold firstPumpPin setPumpOff
  rw [find?_updateFirst (fun a => a.function == "pump")
        (fun a => { a with state := false }) (fun _ h => h) l]
  cases l.find? (fun a => a.function == "pump") <;> rfl

/-- One offline sensor step does not change which pin the emergency loop
would drive. -/
lemma offlineSensorStep_pump (adc : Int → Int) (s : Sensor) (st : SysState) :
    firstPumpPin (offlineSensorStep adc s st).2.1.aktuators = firstPumpPin st.aktuators := by
  by_cases h1 : s.type = "soil_moisture" ∧ 0 < s.threshold
  · by_cases h2 : soilMoistureValue (adc s.pin) < s.threshold
    · cases h3 : firstPumpPin st.aktuators with
      | some p => simp [offlineSensorStep, h1, h2, h3, firstPumpPin_setPumpOff]
      | none => simp [offlineSensorStep, h1, h2, h3]
    · simp [offlineSensorStep, h1, h2]
  · simp [offlineSensorStep, h1]

/-- Once a pin is low and persisted low, one offline sensor step keeps it
so: the step only ever writes low levels and low persisted states. -/
lemma offlineSensorStep_low (adc : Int → Int) (s : Sensor) (st : SysState) (p : Int)
    (hg : st.gpio p = false) (hp : st.persisted p = some false) :
    (offlineSensorStep adc s st).2.1.gpio p = false ∧
    (offlineSensorStep adc s st).2.1.persisted p = some false := by
  by_cases h1 : s.type = "soil_moisture" ∧ 0 < s.threshold
  · by_cases h2 : soilMoistureValue (adc s.pin) < s.threshold
    · cases h3 : firstPumpPin st.aktuators with
      | some q =>
          simp only [offlineSensorStep, h1, h2, h3, if_pos, if_true, and_self, ite_true]
          constructor <;>
            · simp only [setPin]
              split <;> simp [hg, hp]
      | none => simp [offlineSensorStep, h1, h2, h3, hg, hp]
    · simp [offlineSensorStep, h1, h2, hg, hp]
  · simp [offlineSensorStep, h1, hg, hp]

/-- Once a pin is low and persisted low, the whole offline sensor loop
keeps it so. -/
lemma offlineLoop_low (adc : Int → Int) (p : Int) :
    ∀ (ss : List Sensor) (st : SysState), st.gpio p = false → st.persisted p = some false →
      (offlineLoop adc ss st).2.1.gpio p = false ∧
      (offlineLoop adc ss st).2.1.persisted p = some false
  | [], st => fun hg hp => ⟨hg, hp⟩
  | s :: ss, st => fun hg hp => by
      have hstep := offlineSensorStep_low adc s st p hg hp
      simpa [offlineLoop] using
        offlineLoop_low adc p ss (offlineSensorStep adc s st).2.1 hstep.1 hstep.2

/-- An armed soil-moisture sensor reading below its threshold makes the
offline loop run one full watering cycle on the first pump pin, leaving
that pin low and persisted low at the end of the loop. -/
lemma offlineLoop_pump (adc : Int → Int) (p : Int) :
    ∀ (ss : List Sensor) (st : SysState) (s : Sensor), s ∈ ss →
      s.type = "soil_moisture" → 0 < s.threshold →
      soilMoistureValue (adc s.pin) < s.threshold →
      firstPumpPin st.aktuators = some p →
      (∃ pre post, pre ++ pumpActs p ++ post = (offlineLoop adc ss st).2.2) ∧
      (offlineLoop adc ss st).2.1.gpio p = false ∧
      (offlineLoop adc ss st).2.1.persisted p = some false
  | [], _, _ => fun hmem => absurd hmem (List.not_mem_nil _)
  | hd :: tl, st, s => fun hmem htype hth hval hfp => by
      rcases List.mem_cons.mp hmem with rfl | hmem'
      · have h1 : s.type = "soil_moisture" ∧ 0 < s.threshold := ⟨htype, hth⟩
        have hstep : offlineSensorStep adc s st =
            ({ s with value := soilMoistureValue (adc s.pin) },
             { st with aktuators := setPumpOff st.aktuators,
                       gpio := setPin st.gpio p false,
                       persisted := setPin st.persisted p (some false) },
             pumpActs p) := by
          simp [offlineSensorStep, h1, hval, hfp]
        have hlow := offlineLoop_low adc p tl
          (offlineSensorStep adc s st).2.1
          (by rw [hstep]; simp [setPin])
          (by rw [hstep]; simp [setPin])
        refine ⟨⟨[], (offlineLoop adc tl (offlineSensorStep adc s st).2.1).2.2, ?_⟩,
                ?_, ?_⟩
        · simp only [offlineLoop, List.nil_append]
          rw [hstep]
        · simpa [offlineLoop] using hlow.1
        · simpa [offlineLoop] using hlow.2
      · have hfp1 : firstPumpPin (offlineSensorStep adc hd st).2.1.aktuators = some p := by
          rw [offlineSensorStep_pump adc hd st]; exact hfp
        have hrec := offlineLoop_pump adc p tl (offlineSensorStep adc hd st).2.1 s
          hmem' htype hth hval hfp1
        obtain ⟨⟨pre, post, htr⟩, hg, hp⟩ := hrec
        refine ⟨⟨(offlineSensorStep adc hd st).2.2 ++ pre, post, ?_⟩, ?_, ?_⟩
        · simp only [offlineLoop, List.append_assoc]
          rw [← htr]
          simp
        · simpa [offlineLoop] using hg
        · simpa [offlineLoop] using hp

/-- C6: in a degraded mode, at a due five-minute check that does not
restart, every armed soil-moisture sensor reading below its threshold
drives the first pump actuator through one full watering cycle — pump pin
high, persist on, ten-second delay, pump pin low, persist off appear
contiguously in the action trace, both persisted transitions included —
and the run ends with the pump pin persisted off. -/
theorem c6_offline_pump_automation (st : SysState) (now : Nat) (adc : Int → Int)
    (s : Sensor) (p : Int) :
    st.mode ≠ .ONLINE →
    ¬ (now ≥ st.offlineUntil ∧ 0 < st.offlineUntil) →
    now - st.lastMoistureCheck ≥ moistureInterval →
    s ∈ st.sensors → s.type = "soil_moisture" → 0 < s.threshold →
    soilMoistureValue (adc s.pin) < s.threshold →
    firstPumpPin st.aktuators = some p →
    (∃ pre post, pre ++ pumpActs p ++ post = (checkOfflineMode now adc st).2) ∧
    Act.persistState p true ∈ (checkOfflineMode now adc st).2 ∧
    Act.persistState p false ∈ (checkOfflineMode now adc st).2 ∧
    (checkOfflineMode now adc st).1.persisted p = some false := by
  intro hm hr hint hmem htype hth hval hfp
  have hloop := offlineLoop_pump adc p st.sensors st s hmem htype hth hval hfp
  have htrace : (checkOfflineMode now adc st).2 = (offlineLoop adc st.sensors st).2.2 := by
    unfold checkOfflineMode
    rw [if_neg hm, if_neg hr, if_pos hint]
  have hpers : (checkOfflineMode now adc st).1.persisted p =
      (offlineLoop adc st.sensors st).2.1.persisted p := by
    unfold checkOfflineMode
    rw [if_neg hm, if_neg hr, if_pos hint]
  obtain ⟨⟨pre, post, htr⟩, _, hp⟩ := hloop
  have hmem1 : Act.persistState p true ∈ (checkOfflineMode now adc st).2 := by
    rw [htrace, ← htr]
    simp [pumpActs]
  have hmem2 : Act.persistState p false ∈ (checkOfflineMode now adc st).2 := by
    rw [htrace, ← htr]
    simp [pumpActs]
  exact ⟨⟨pre, post, by rw [htrace]; exact htr⟩, hmem1, hmem2, by rw [hpers]; exact hp⟩

/-- C6 witness: the spec scenario — a soil-moisture sensor on pin 34 with
threshold 30 reading 22 percent (raw ADC 2612) during a due check in
OFFLINE_WIFI — waters through the pump on pin 12 and persists both
transitions. -/
theorem c6_offline_pump_automation_witness :
    Act.persistState 12 true ∈
      (checkOfflineMode 300000 (fun _ => 2612)
        { baseState with mode := .OFFLINE_WIFI, offlineUntil := 1000000000,
                         sensors := [⟨"soil_moisture", 34, 30, 0⟩],
                         aktuators := [⟨"pump", 12, false, false⟩] }).2 ∧
    Act.persistState 12 false ∈
      (checkOfflineMode 300000 (fun _ => 2612)
        { baseState with mode := .OFFLINE_WIFI, offlineUntil := 1000000000,
                         sensors := [⟨"soil_moisture", 34, 30, 0⟩],
                         aktuators := [⟨"pump", 12, false, false⟩] }).2 := by
  have h := c6_offline_pump_automation
    { baseState with mode := .OFFLINE_WIFI, offlineUntil := 1000000000,
                     sensors := [⟨"soil_moisture", 34, 30, 0⟩],
                     aktuators := [⟨"pump", 12, false, false⟩] }
    300000 (fun _ => 2612) ⟨"soil_moisture", 34, 30, 0⟩ 12
    (by decide) (by decide) (by decide) (by decide) rfl (by decide) (by decide) rfl
  exact ⟨h.2.1, h.2.2.1⟩

end SilverLink
